import Mathlib

/-
  Formal model of the scoring-and-reconciliation pipeline of the
  stock-analyzer backend, together with proofs of its specification
  properties.

  Embedding conventions:
  * Python floats are modelled as exact rationals (`ℚ`).  Every numeric
    literal appearing in the source (15, 20, 30, 0.20, 0.15, 0.10, 0.3,
    the benchmark table entries) is representable in a way that makes the
    branch comparisons agree with IEEE double comparisons at every input
    relevant to the properties proved below; in particular each product
    `normal_max * 0.3` computed in doubles is exactly the nominal value
    `3 * normal_max / 10` for every entry of the benchmark table.
  * `int((score / max_possible) * 100)` truncates toward zero.  For every
    reachable pair `(score, max_possible)` (finitely many: subset sums of
    the tier points and of the weights 35/35/30) the double computation
    equals the exact floor, so it is modelled as natural division
    `score * 100 / max_possible`.
  * Missing metrics are the sentinel `-1`, exactly as in the Python tool
    signature.
  * Strings are kept verbatim from the source (f-string interpolations
    become concatenations).
-/

set_option maxRecDepth 2000

namespace StockAnalyzer

/-- Sector debt benchmark table `SECTOR_DEBT_BENCHMARKS` from
`tools.py`/`tools_hybrid.py`, as the pair `(normal_max, risky_above)`;
unknown sectors fall back to `DEFAULT_DEBT_BENCHMARK = (80, 150)`
(the `.get(sector, DEFAULT_DEBT_BENCHMARK)` lookup). -/
def benchmarkFor (sector : String) : ℚ × ℚ :=
  if sector = "Financial Services" then (500, 1000)
  else if sector = "Banking" then (500, 1000)
  else if sector = "Industrials" then (150, 300)
  else if sector = "Utilities" then (200, 400)
  else if sector = "Real Estate" then (200, 400)
  else if sector = "Energy" then (100, 200)
  else if sector = "Technology" then (50, 100)
  else if sector = "Consumer Cyclical" then (80, 150)
  else if sector = "Healthcare" then (60, 120)
  else if sector = "Consumer Defensive" then (60, 120)
  else if sector = "Basic Materials" then (80, 150)
  else if sector = "Communication Services" then (100, 200)
  else (80, 150)

/-- Outcome of scoring one metric inside `CalculateValueScoreTool._run`:
points added to `score`, weight added to `max_possible`, and the strings
appended to `details` and `warnings`. -/
structure MetricEval where
  points : ℕ
  weight : ℕ
  details : List String
  warnings : List String
deriving DecidableEq

/-- P/E scoring ladder of `CalculateValueScoreTool._run` (max 35 points;
`-1` is the N/A sentinel). -/
def peEval (pe : ℚ) : MetricEval :=
  if pe = -1 then ⟨0, 0, [], ["P/E is N/A — P/E score skipped (0/35)"]⟩
  else if pe < 15 then ⟨35, 35, ["Excellent P/E (undervalued)"], []⟩
  else if pe < 20 then ⟨25, 35, ["Good P/E"], []⟩
  else if pe < 30 then ⟨10, 35, ["Fair P/E"], []⟩
  else ⟨0, 35, ["High P/E — overvaluation risk"], []⟩

/-- ROE scoring ladder of `CalculateValueScoreTool._run` (max 35 points). -/
def roeEval (roe : ℚ) : MetricEval :=
  if roe = -1 then ⟨0, 0, [], ["ROE is N/A — ROE score skipped (0/35)"]⟩
  else if roe > 0.20 then ⟨35, 35, ["Excellent ROE — strong management"], []⟩
  else if roe > 0.15 then ⟨25, 35, ["Good ROE"], []⟩
  else if roe > 0.10 then ⟨10, 35, ["Fair ROE"], []⟩
  else ⟨0, 35, ["Low ROE — efficiency concerns"], []⟩

/-- Sector-aware Debt/Equity scoring ladder of
`CalculateValueScoreTool._run` (max 30 points). -/
def deEval (de : ℚ) (sector : String) : MetricEval :=
  let bm := benchmarkFor sector
  if de = -1 then ⟨0, 0, [], ["Debt/Equity is N/A — D/E score skipped (0/30)"]⟩
  else if de < bm.1 * 0.3 then ⟨30, 30, ["Low debt for " ++ sector ++ " — very safe"], []⟩
  else if de < bm.1 then ⟨20, 30, ["Normal debt for " ++ sector ++ " — acceptable"], []⟩
  else if de < bm.2 then ⟨10, 30, ["Elevated debt for " ++ sector ++ " — monitor"], []⟩
  else ⟨0, 30, ["High debt even for " ++ sector ++ " — risky (threshold: " ++ toString bm.2 ++ ")"], []⟩

/-- Result record of the value scorer: the quantities printed as
`Raw Score: score/max_possible | Normalized Score: normalized/100`,
plus the `details` and `warnings` lists. -/
structure ScoreBreakdown where
  score : ℕ
  maxPossible : ℕ
  normalized : ℕ
  details : List String
  warnings : List String
deriving DecidableEq

/-- Model of `CalculateValueScoreTool._run` (identical in `tools.py` and
`tools_hybrid.py`).  `normalized := score * 100 / maxPossible` is natural
(floor) division, the exact value of the truncation
`int((score / max_possible) * 100)` at every reachable pair. -/
def calculateValueScore (pe roe de : ℚ) (sector : String) : ScoreBreakdown :=
  let p := peEval pe
  let r := roeEval roe
  let d := deEval de sector
  let score := p.points + r.points + d.points
  let maxPossible := p.weight + r.weight + d.weight
  { score := score
    maxPossible := maxPossible
    normalized := if 0 < maxPossible then score * 100 / maxPossible else 0
    details := p.details ++ r.details ++ d.details
    warnings := p.warnings ++ r.warnings ++ d.warnings }

/-- Normalization rule in the words of the specification:
`round(100 * raw_score / max_possible)` when `max_possible > 0`, else `0`.
Stated only for comparison against the implementation model
`calculateValueScore`, whose truncation differs from rounding. -/
def specNormalized (score maxPossible : ℕ) : ℤ :=
  if 0 < maxPossible then round ((100 * score : ℚ) / maxPossible) else 0

/-- Confidence labels parsed out of the final narrative by `save_result`
(`main.py`) and `analyze` (`api.py`); `UNKNOWN` is the parser's default
when no label is found in the text. -/
inductive Confidence where
  | HIGH
  | MEDIUM
  | LOW
  | UNKNOWN
deriving DecidableEq

/-- One missing-data downgrade step exactly as implemented in
`save_result` (`main.py`) and `analyze` (`api.py`): HIGH becomes MEDIUM,
MEDIUM becomes LOW, and anything else (LOW, UNKNOWN) is left unchanged. -/
def downgradeStep : Confidence → Confidence
  | .HIGH => .MEDIUM
  | .MEDIUM => .LOW
  | c => c

/-- Post-matrix confidence adjustment: the downgrade step runs exactly
when a missing-data marker (the warning emoji or the text
`MISSING DATA`) was detected in the result text. -/
def applyDowngrade (missingDetected : Bool) (c : Confidence) : Confidence :=
  if missingDetected then downgradeStep c else c

/-- Quantitative-stage recommendation vocabulary. -/
inductive QuantVerdict where
  | BUY
  | WATCH
  | AVOID
deriving DecidableEq

/-- Research-stage sentiment vocabulary. -/
inductive Sentiment where
  | BULLISH
  | NEUTRAL
  | BEARISH
deriving DecidableEq

/-- Final decision vocabulary produced by the decision matrix. -/
inductive FinalCall where
  | BUY
  | WATCH
  | AVOID
deriving DecidableEq

/-- Decision matrix of the portfolio-manager task
(`create_decision_task`, `tasks.py`, the nine `Quant x + Research y = z |
Confidence: w` rows), transcribed row by row. -/
def reconcile : QuantVerdict → Sentiment → FinalCall × Confidence
  | .BUY, .BULLISH => (.BUY, .HIGH)
  | .BUY, .NEUTRAL => (.BUY, .MEDIUM)
  | .BUY, .BEARISH => (.WATCH, .MEDIUM)
  | .WATCH, .BULLISH => (.BUY, .MEDIUM)
  | .WATCH, .NEUTRAL => (.WATCH, .MEDIUM)
  | .WATCH, .BEARISH => (.WATCH, .LOW)
  | .AVOID, .BULLISH => (.WATCH, .LOW)
  | .AVOID, .NEUTRAL => (.AVOID, .MEDIUM)
  | .AVOID, .BEARISH => (.AVOID, .HIGH)

/-- Python truthiness of an optional float: `None` and `0.0` are both
falsy.  The fundamentals tools test presence with a bare `if pe:` /
`if not pe:`. -/
def truthy : Option ℚ → Bool
  | none => false
  | some q => decide (q ≠ 0)

/-- Report produced by `GetFundamentalsTool._run` in `tools.py`,
restricted to what the formatting computes: for each metric, `some v`
models the number being printed and `none` models the string `N/A`;
`missing` is the warning list feeding the `MISSING DATA` banner. -/
structure FundamentalsReport where
  peShown : Option ℚ
  roeShown : Option ℚ
  deShown : Option ℚ
  missing : List String
deriving DecidableEq

/-- Model of `GetFundamentalsTool._run` (`tools.py`): each field prints
its value when truthy and `N/A` otherwise (`pe_str = f"..." if pe else
"N/A"`), and the missing list collects each metric whose value is falsy
(`if not pe: missing.append("P/E")`, etc.). -/
def getFundamentals (pe roe de : Option ℚ) : FundamentalsReport :=
  { peShown := if truthy pe then pe else none
    roeShown := if truthy roe then roe else none
    deShown := if truthy de then de else none
    missing := (if truthy pe then [] else ["P/E"])
        ++ (if truthy roe then [] else ["ROE"])
        ++ (if truthy de then [] else ["Debt/Equity"]) }

/-- Record returned by `get_alpha_vantage_data` (`tools_hybrid.py`) when
the provider answers: each ratio is `float(...) or None` (so `some 0`
never occurs in practice, but the model keeps the general type), plus the
provider's sector string. -/
structure AVData where
  pe : Option ℚ
  roe : Option ℚ
  de : Option ℚ
  sector : String
deriving DecidableEq

/-- Sector fallback table `SECTOR_FALLBACKS` (`tools_hybrid.py`): per
sector the conservative estimates `(pe, roe, de)`. -/
def SECTOR_FALLBACKS : List (String × ℚ × ℚ × ℚ) :=
  [("Financial Services", 15, 0.14, 200),
   ("Banking", 15, 0.14, 200),
   ("Industrials", 25, 0.15, 80),
   ("Energy", 12, 0.10, 60),
   ("Technology", 20, 0.20, 20),
   ("Consumer Cyclical", 30, 0.12, 50),
   ("Healthcare", 35, 0.18, 30),
   ("Consumer Defensive", 40, 0.15, 40),
   ("Basic Materials", 18, 0.12, 60),
   ("Communication Services", 25, 0.12, 80),
   ("Utilities", 15, 0.10, 100),
   ("Real Estate", 20, 0.08, 150)]

/-- Dictionary access `SECTOR_FALLBACKS[sector]` guarded by
`sector in SECTOR_FALLBACKS`: `none` for sectors outside the table. -/
def sectorFallbacks (sector : String) : Option (ℚ × ℚ × ℚ) :=
  SECTOR_FALLBACKS.lookup sector

/-- Priority merge of one metric in the hybrid tool:
`pe = av_data.get('pe') if av_data and av_data.get('pe') else
info.get('trailingPE')` — the Alpha Vantage value wins when truthy,
otherwise the yfinance value is used. -/
def combineAV (avField : Option (Option ℚ)) (infoField : Option ℚ) : Option ℚ :=
  match avField with
  | some x => if truthy x then x else infoField
  | none => infoField

/-- Fallback fill of one metric: `if not pe and sector in
SECTOR_FALLBACKS: pe = SECTOR_FALLBACKS[sector][...]`; the boolean
records whether an entry was appended to `fallback_applied`. -/
def fillFallback (x : Option ℚ) (fb : Option ℚ) : Option ℚ × Bool :=
  match fb with
  | some v => if truthy x then (x, false) else (some v, true)
  | none => (x, false)

/-- Report of the hybrid `GetFundamentalsTool._run` (`tools_hybrid.py`):
final metric values, the `fallback_applied` entries (abstracted to the
prefixes `P/E=` / `ROE=` / `D/E=` that the membership tests
`any('P/E=' in fb ...)` actually distinguish), and the `MISSING DATA`
list. -/
structure HybridReport where
  sector : String
  pe : Option ℚ
  roe : Option ℚ
  de : Option ℚ
  fallbackApplied : List String
  missing : List String
deriving DecidableEq

/-- Sector selection of the hybrid tool: `av_data.get('sector') if
av_data else info.get('sector', 'Unknown')` (the yfinance default is
folded into `infoSector`). -/
def hybridSector (av : Option AVData) (infoSector : String) : String :=
  match av with
  | some a => a.sector
  | none => infoSector

/-- Model of the hybrid `GetFundamentalsTool._run` (`tools_hybrid.py`,
after the validity guard): sector from Alpha Vantage when it answered,
else from yfinance; metrics merged by `combineAV`, then filled from the
sector fallback table; a metric lands in `missing` only when it is still
falsy and no fallback entry for it was recorded. -/
def getFundamentalsHybrid (av : Option AVData) (infoSector : String)
    (iPe iRoe iDe : Option ℚ) : HybridReport :=
  let sector := hybridSector av infoSector
  let pe0 := combineAV (av.map AVData.pe) iPe
  let roe0 := combineAV (av.map AVData.roe) iRoe
  let de0 := combineAV (av.map AVData.de) iDe
  let fb := sectorFallbacks sector
  let peFill := fillFallback pe0 (fb.map fun f => f.1)
  let roeFill := fillFallback roe0 (fb.map fun f => f.2.1)
  let deFill := fillFallback de0 (fb.map fun f => f.2.2)
  let fallbackApplied := (if peFill.2 then ["P/E="] else [])
      ++ (if roeFill.2 then ["ROE="] else [])
      ++ (if deFill.2 then ["D/E="] else [])
  { sector := sector
    pe := peFill.1
    roe := roeFill.1
    de := deFill.1
    fallbackApplied := fallbackApplied
    missing := (if !truthy peFill.1 && !fallbackApplied.contains "P/E=" then ["P/E"] else [])
        ++ (if !truthy roeFill.1 && !fallbackApplied.contains "ROE=" then ["ROE"] else [])
        ++ (if !truthy deFill.1 && !fallbackApplied.contains "D/E=" then ["D/E"] else []) }

/-- Extended float value for the RSI computation: pandas/numpy IEEE
semantics propagate `NaN` (short rolling windows, `0/0`) and infinities
(`x/0` with `x > 0`) instead of raising. -/
inductive RFloat where
  | nan
  | inf
  | ninf
  | val (q : ℚ)
deriving DecidableEq

/-- IEEE-style comparison `x < c` against a finite bound: `NaN` compares
false, `+∞` compares false, `−∞` compares true. -/
def RFloat.lt (x : RFloat) (c : ℚ) : Bool :=
  match x with
  | .nan => false
  | .inf => false
  | .ninf => true
  | .val q => decide (q < c)

/-- Band classification of `GetStockPriceTool._run` (`tools.py` and
`tools_hybrid.py`): the `if rsi < 30: ... elif ... else` ladder over the
computed RSI value. -/
def rsiSignal (r : RFloat) : String :=
  if r.lt 30 then "OVERSOLD - Strong potential BUY signal"
  else if r.lt 45 then "Slightly oversold - Good entry point"
  else if r.lt 55 then "NEUTRAL - No strong signal"
  else if r.lt 70 then "Slightly overbought - Caution"
  else "OVERBOUGHT - Potential SELL signal"

/-- Day-over-day differences `hist['Close'].diff()` without the leading
`NaN` entry: element `i` is `closes[i+1] - closes[i]`. -/
def diffs (closes : List ℚ) : List ℚ :=
  List.zipWith (fun prev cur => cur - prev) closes closes.tail

/-- Positive parts `delta.where(delta > 0, 0)`. -/
def gains (ds : List ℚ) : List ℚ :=
  ds.map fun d => if d > 0 then d else 0

/-- Magnitudes of the negative parts `-delta.where(delta < 0, 0)`. -/
def losses (ds : List ℚ) : List ℚ :=
  ds.map fun d => if d < 0 then -d else 0

/-- Last entry of `series.rolling(window=14).mean()` where `series` is
the pandas `diff` column (a leading `NaN` followed by `xs`): the final
window is `NaN`-free exactly when `xs` holds at least 14 true
differences, i.e. when there are at least 15 closes; otherwise the last
rolling mean is `NaN` (`none`). -/
def lastRollingMean (xs : List ℚ) : Option ℚ :=
  if xs.length < 14 then none else some ((xs.drop (xs.length - 14)).sum / 14)

/-- Final average gain of the 14-period window. -/
def avgGain (closes : List ℚ) : Option ℚ :=
  lastRollingMean (gains (diffs closes))

/-- Final average loss of the 14-period window. -/
def avgLoss (closes : List ℚ) : Option ℚ :=
  lastRollingMean (losses (diffs closes))

/-- The division `rs = gain / loss` at the final index with IEEE
semantics: `g / 0 = +∞` for `g > 0` (both operands are nonnegative here)
and `0 / 0 = NaN`; no special case guards the zero divisor. -/
def rsDiv (g l : ℚ) : RFloat :=
  if l = 0 then (if g = 0 then .nan else .inf) else .val (g / l)

/-- Addition `1 + rs` lifted to the float model. -/
def onePlus : RFloat → RFloat
  | .nan => .nan
  | .inf => .inf
  | .ninf => .ninf
  | .val q => .val (1 + q)

/-- Division `100 / x` lifted to the float model (`100 / ±∞ = 0`). -/
def hundredDiv : RFloat → RFloat
  | .nan => .nan
  | .inf => .val 0
  | .ninf => .val 0
  | .val q => if q = 0 then .inf else .val (100 / q)

/-- Subtraction `100 - y` lifted to the float model. -/
def hundredSub : RFloat → RFloat
  | .nan => .nan
  | .inf => .ninf
  | .ninf => .inf
  | .val q => .val (100 - q)

/-- Scalar tail of the RSI formula,
`rsi = 100 - (100 / (1 + gain / loss))`, at the final index. -/
def rsiFromAvgs (g l : ℚ) : RFloat :=
  hundredSub (hundredDiv (onePlus (rsDiv g l)))

/-- The 14-period RSI of `GetStockPriceTool._run` at the last row:
`NaN` whenever the rolling windows are undefined (fewer than 15
closes). -/
def rsiOf (closes : List ℚ) : RFloat :=
  match avgGain closes, avgLoss closes with
  | some g, some l => rsiFromAvgs g l
  | _, _ => .nan

/-- Instrumentation of the division site `rs = gain / loss` at the final
index: true exactly when the divisor `avg_loss` evaluates to (exact)
zero, i.e. when a division by zero is performed there. -/
def rsDividesByZero (closes : List ℚ) : Bool :=
  match avgLoss closes with
  | some l => decide (l = 0)
  | none => false

/-- Result of `GetStockPriceTool._run`: the error string for an empty
history, otherwise the last close together with the computed RSI and its
band signal (no other return path exists). -/
inductive PriceToolResult where
  | error (msg : String)
  | ok (price : ℚ) (rsi : RFloat) (signal : String)
deriving DecidableEq

/-- Model of `GetStockPriceTool._run` after the ticker-suffix handling:
`hist.empty` yields the error return, any nonempty close series proceeds
to the RSI computation and band classification. -/
def getStockPrice (closes : List ℚ) : PriceToolResult :=
  match closes.getLast? with
  | none => .error "No data found"
  | some p => .ok p (rsiOf closes) (rsiSignal (rsiOf closes))

/-- Strictly increasing 15-close price history: a pure-gain window whose
final 14 differences are all `+1`. -/
def pureGainCloses : List ℚ :=
  [1, 2, 3, 4, 5, 6, 7, 8, 9, 10, 11, 12, 13, 14, 15]

/-- One entry of the list returned by `analyze_multiple_stocks`
(`main.py`), restricted to the fields every entry carries. -/
structure TickerResult where
  ticker : String
  result : String
  status : String
deriving DecidableEq

/-- Boundary conversion of one ticker's outcome, the per-ticker
`try/except` of `analyze_multiple_stocks`: a normal completion of
`analyze_stock` passes through with status `completed`; an exception is
converted into an entry with status `failed` whose ticker is taken from
`future_to_ticker` (parallel branch) or the loop variable (sequential
branch), never from the failed computation. -/
def runTicker (outcome : String → Except String String) (t : String) : TickerResult :=
  match outcome t with
  | .ok r => ⟨t, r, "completed"⟩
  | .error e => ⟨t, "Error: " ++ e, "failed"⟩

/-- Sequential branch of `analyze_multiple_stocks`: one entry per ticker
in submission order. -/
def analyzeMultipleSequential (outcome : String → Except String String)
    (tickers : List String) : List TickerResult :=
  tickers.map (runTicker outcome)

/-- Parallel branch of `analyze_multiple_stocks`: all tickers are
submitted, futures are drained with `as_completed` in an arbitrary
completion order (modelled as a list `order` of submission indices), and
each future is converted at its own boundary. -/
def analyzeMultipleParallel (outcome : String → Except String String)
    (tickers : List String) (order : List (Fin tickers.length)) : List TickerResult :=
  order.map fun i => runTicker outcome (tickers.get i)

/-- Concrete two-ticker batch for exercising the batch analyzer. -/
def demoTickers : List String := ["HDFCBANK.NS", "RELIANCE.NS"]

/-- Concrete outcome function: the second ticker's pipeline raises. -/
def demoOutcome : String → Except String String :=
  fun t => if t = "RELIANCE.NS" then .error "boom" else .ok "report"

/-- Concrete completion order: the second future finishes first. -/
def demoOrder : List (Fin demoTickers.length) := [⟨1, by decide⟩, ⟨0, by decide⟩]

lemma peEval_weight (pe : ℚ) : (peEval pe).weight = if pe = -1 then 0 else 35 := by
  unfold peEval; split_ifs <;> rfl

lemma roeEval_weight (roe : ℚ) : (roeEval roe).weight = if roe = -1 then 0 else 35 := by
  unfold roeEval; split_ifs <;> rfl

lemma deEval_weight (de : ℚ) (sector : String) :
    (deEval de sector).weight = if de = -1 then 0 else 30 := by
  simp only [deEval]; split_ifs <;> rfl

lemma natDiv_eq_floor (s m : ℕ) :
    (if 0 < m then s * 100 / m else 0)
      = (if 0 < m then ⌊(100 * (s : ℚ)) / (m : ℚ)⌋₊ else 0) := by
  split_ifs with h
  · rw [show (100 * (s : ℚ)) = ((100 * s : ℕ) : ℚ) by push_cast; ring,
      Nat.floor_div_eq_div, Nat.mul_comm]
  · rfl

lemma lookup_prop {α : Type} (P : α → Prop) (l : List (String × α))
    (hl : ∀ x ∈ l, P x.2) (k : String) (v : α) (h : l.lookup k = some v) : P v := by
  induction l with
  | nil => simp [List.lookup] at h
  | cons a t ih =>
    obtain ⟨k₀, v₀⟩ := a
    simp only [List.lookup] at h
    split at h
    · exact (Option.some.inj h) ▸ hl (k₀, v₀) (by simp)
    · exact ih (fun x hx => hl x (List.mem_cons_of_mem _ hx)) h

lemma sectorFallbacks_ne_zero (s : String) (f : ℚ × ℚ × ℚ)
    (h : sectorFallbacks s = some f) : f.1 ≠ 0 ∧ f.2.1 ≠ 0 ∧ f.2.2 ≠ 0 :=
  lookup_prop (fun x => x.1 ≠ 0 ∧ x.2.1 ≠ 0 ∧ x.2.2 ≠ 0) SECTOR_FALLBACKS
    (by with_unfolding_all decide) s f h

lemma fillFallback_falsy (x : Option ℚ) (v : ℚ) (hx : truthy x = false) :
    fillFallback x (some v) = (some v, true) := by
  simp [fillFallback, hx]

/-- Claim C1 is false as stated: the implementation truncates
(`int((score / max_possible) * 100)`), it does not round.  At the input
P/E = 25 (Fair, 10 points), ROE and D/E missing, the code produces
normalized score 28, while `round(100 * 10 / 35) = 29` as the claim
requires. -/
theorem valueScore_round_claim_false :
    (calculateValueScore 25 (-1) (-1) "Technology").score = 10 ∧
    (calculateValueScore 25 (-1) (-1) "Technology").maxPossible = 35 ∧
    (calculateValueScore 25 (-1) (-1) "Technology").normalized = 28 ∧
    specNormalized 10 35 = 29 ∧ (28 : ℕ) ≠ 29 := by
  refine ⟨?_, ?_, ?_, ?_, ?_⟩ <;> with_unfolding_all decide

/-- Claim C1, amended: for every input to the value scorer,
`max_possible` is the sum of the weights (35, 35, 30) of exactly the
metrics that are present (not the `-1` sentinel), and the normalized
score is the FLOOR of `100 * raw_score / max_possible` when
`max_possible > 0` (and `0` otherwise); in particular P/E = 12 present,
ROE = 0.22 present, D/E missing yields raw = 70, max = 70,
normalized = 100, with the D/E warning recorded. -/
theorem valueScore_normalization_floor (pe roe de : ℚ) (sector : String) :
    (calculateValueScore pe roe de sector).maxPossible
        = (if pe = -1 then 0 else 35) + (if roe = -1 then 0 else 35)
          + (if de = -1 then 0 else 30) ∧
    (calculateValueScore pe roe de sector).normalized
        = (if 0 < (calculateValueScore pe roe de sector).maxPossible then
            ⌊(100 * ((calculateValueScore pe roe de sector).score : ℚ))
              / ((calculateValueScore pe roe de sector).maxPossible : ℚ)⌋₊
          else 0) ∧
    calculateValueScore 12 0.22 (-1) "Technology"
        = ⟨70, 70, 100,
           ["Excellent P/E (undervalued)", "Excellent ROE — strong management"],
           ["Debt/Equity is N/A — D/E score skipped (0/30)"]⟩ := by
  refine ⟨?_, ?_, by with_unfolding_all rfl⟩
  · show (peEval pe).weight + (roeEval roe).weight + (deEval de sector).weight = _
    rw [peEval_weight, roeEval_weight, deEval_weight]
  · have hs : (calculateValueScore pe roe de sector).normalized
        = (if 0 < (calculateValueScore pe roe de sector).maxPossible then
            (calculateValueScore pe roe de sector).score * 100
              / (calculateValueScore pe roe de sector).maxPossible
          else 0) := rfl
    rw [hs, natDiv_eq_floor]

/-- Claim C9: every `pe_ratio` other than the sentinel `-1` is treated as
present, so any value strictly below 15 — negative P/E values included —
earns the full 35 points with the note `Excellent P/E (undervalued)`
(the whole scorer output coincides with that of an uncontroversial
excellent P/E such as 12), while the input `-1` itself always takes the
missing-data branch, making a genuine `-1.0` indistinguishable from
missing data. -/
theorem peEval_nonSentinel_below15 (pe roe de : ℚ) (sector : String)
    (h1 : pe ≠ -1) (h2 : pe < 15) :
    peEval pe = ⟨35, 35, ["Excellent P/E (undervalued)"], []⟩ ∧
    "Excellent P/E (undervalued)" ∈ (calculateValueScore pe roe de sector).details ∧
    calculateValueScore pe roe de sector = calculateValueScore 12 roe de sector ∧
    peEval (-1) = ⟨0, 0, [], ["P/E is N/A — P/E score skipped (0/35)"]⟩ := by
  have hpe : peEval pe = ⟨35, 35, ["Excellent P/E (undervalued)"], []⟩ := by
    unfold peEval; rw [if_neg h1, if_pos h2]
  have h12 : peEval 12 = ⟨35, 35, ["Excellent P/E (undervalued)"], []⟩ := by
    unfold peEval; norm_num
  refine ⟨hpe, ?_, ?_, by decide⟩
  · show "Excellent P/E (undervalued)"
        ∈ (peEval pe).details ++ (roeEval roe).details ++ (deEval de sector).details
    rw [hpe]; exact List.mem_append_left _ (List.mem_append_left _ (List.mem_singleton_self _))
  · unfold calculateValueScore
    rw [hpe, h12]

/-- Witness for `peEval_nonSentinel_below15` at the concrete loss-maker
input P/E = -5 (present, negative), ROE and D/E missing, unknown sector. -/
theorem peEval_nonSentinel_below15_witness :
    ((-5 : ℚ) ≠ -1 ∧ (-5 : ℚ) < 15) ∧
    (peEval (-5) = ⟨35, 35, ["Excellent P/E (undervalued)"], []⟩ ∧
     "Excellent P/E (undervalued)" ∈ (calculateValueScore (-5) (-1) (-1) "Unknown").details ∧
     calculateValueScore (-5) (-1) (-1) "Unknown" = calculateValueScore 12 (-1) (-1) "Unknown" ∧
     peEval (-1) = ⟨0, 0, [], ["P/E is N/A — P/E score skipped (0/35)"]⟩) :=
  ⟨⟨by decide, by decide⟩,
   peEval_nonSentinel_below15 (-5) (-1) (-1) "Unknown" (by decide) (by decide)⟩

/-- Claim C2 is false as stated: the missing-data downgrade of
`save_result`/`analyze` is not idempotent.  Applied once to HIGH it gives
MEDIUM, applied twice it gives LOW, and LOW is not MEDIUM. -/
theorem downgrade_not_idempotent :
    applyDowngrade true Confidence.HIGH = Confidence.MEDIUM ∧
    applyDowngrade true (applyDowngrade true Confidence.HIGH) = Confidence.LOW ∧
    Confidence.LOW ≠ Confidence.MEDIUM := by decide

/-- Claim C2, amended: the missing-data downgrade lowers the confidence
by exactly one step on the scale HIGH→MEDIUM→LOW with a floor at LOW (LOW
stays LOW, and a value outside the scale is unchanged), but it is NOT
idempotent: applying it twice agrees with applying it once on MEDIUM, LOW
and UNKNOWN, while HIGH downgraded twice ends at LOW, one step below
HIGH downgraded once.  The pipeline therefore relies on running the
downgrade exactly once. -/
theorem downgrade_one_step_floor :
    applyDowngrade true Confidence.HIGH = Confidence.MEDIUM ∧
    applyDowngrade true Confidence.MEDIUM = Confidence.LOW ∧
    applyDowngrade true Confidence.LOW = Confidence.LOW ∧
    applyDowngrade true Confidence.UNKNOWN = Confidence.UNKNOWN ∧
    applyDowngrade true (applyDowngrade true Confidence.MEDIUM)
      = applyDowngrade true Confidence.MEDIUM ∧
    applyDowngrade true (applyDowngrade true Confidence.LOW)
      = applyDowngrade true Confidence.LOW ∧
    applyDowngrade true (applyDowngrade true Confidence.UNKNOWN)
      = applyDowngrade true Confidence.UNKNOWN ∧
    applyDowngrade true (applyDowngrade true Confidence.HIGH)
      ≠ applyDowngrade true Confidence.HIGH ∧
    applyDowngrade false Confidence.HIGH = Confidence.HIGH ∧
    applyDowngrade false Confidence.MEDIUM = Confidence.MEDIUM ∧
    applyDowngrade false Confidence.LOW = Confidence.LOW ∧
    applyDowngrade false Confidence.UNKNOWN = Confidence.UNKNOWN := by decide

/-- Claim C3: the decision reconciler is a total function on the 9 pairs
of quant verdict × research sentiment, mapping each pair to exactly one
(decision, base-confidence) pair with the values of the matrix; no pair
is unhandled. -/
theorem reconcile_total_matrix :
    (∀ q s, ∃! r : FinalCall × Confidence, reconcile q s = r) ∧
    reconcile .BUY .BULLISH = (.BUY, .HIGH) ∧
    reconcile .BUY .NEUTRAL = (.BUY, .MEDIUM) ∧
    reconcile .BUY .BEARISH = (.WATCH, .MEDIUM) ∧
    reconcile .WATCH .BULLISH = (.BUY, .MEDIUM) ∧
    reconcile .WATCH .NEUTRAL = (.WATCH, .MEDIUM) ∧
    reconcile .WATCH .BEARISH = (.WATCH, .LOW) ∧
    reconcile .AVOID .BULLISH = (.WATCH, .LOW) ∧
    reconcile .AVOID .NEUTRAL = (.AVOID, .MEDIUM) ∧
    reconcile .AVOID .BEARISH = (.AVOID, .HIGH) := by
  refine ⟨fun q s => ⟨reconcile q s, rfl, fun r h => h.symm⟩, ?_⟩
  repeat' apply And.intro
  all_goals rfl

/-- Claim C7 is false as stated: a fetched record with a present ROE of
exactly 0 is reported as `N/A` and listed under `MISSING DATA`, because
presence is tested with Python truthiness (`if not roe:`), which cannot
tell `0.0` from `None`. -/
theorem fundamentals_zero_reported_missing :
    (getFundamentals (some 31) (some 0) (some 1)).roeShown = none ∧
    "ROE" ∈ (getFundamentals (some 31) (some 0) (some 1)).missing := by
  constructor
  · rfl
  · decide

/-- Claim C7, amended: the fundamentals normalizer conflates a metric
whose value is exactly 0 with a missing metric — a present 0 is shown as
`N/A` and listed as missing, exactly like an absent value; only nonzero
present values are reported as present.  An absent value is indeed never
coerced to a number: `none` is always shown as `N/A`. -/
theorem fundamentals_truthiness_reporting (pe roe de : Option ℚ) :
    ((getFundamentals pe roe de).peShown = if truthy pe then pe else none) ∧
    ((getFundamentals pe roe de).roeShown = if truthy roe then roe else none) ∧
    ((getFundamentals pe roe de).deShown = if truthy de then de else none) ∧
    ("P/E" ∈ (getFundamentals pe roe de).missing ↔ truthy pe = false) ∧
    ("ROE" ∈ (getFundamentals pe roe de).missing ↔ truthy roe = false) ∧
    ("Debt/Equity" ∈ (getFundamentals pe roe de).missing ↔ truthy de = false) ∧
    truthy none = false ∧ truthy (some 0) = false ∧
    (∀ v : ℚ, truthy (some v) = true ↔ v ≠ 0) := by
  refine ⟨rfl, rfl, rfl, ?_, ?_, ?_, rfl, by decide, ?_⟩
  · cases hp : truthy pe <;> cases hr : truthy roe <;> cases hd : truthy de <;>
      simp [getFundamentals, hp, hr, hd]
  · cases hp : truthy pe <;> cases hr : truthy roe <;> cases hd : truthy de <;>
      simp [getFundamentals, hp, hr, hd]
  · cases hp : truthy pe <;> cases hr : truthy roe <;> cases hd : truthy de <;>
      simp [getFundamentals, hp, hr, hd]
  · intro v
    simp [truthy]

/-- Claim C10: in the hybrid fundamentals tool, whenever a metric that is
falsy after merging both providers is filled from the sector-average
fallback table, that metric is excluded from the `MISSING DATA` list: it
is recorded in `fallback_applied` (reported as ESTIMATED) and the
missing-data signal for it is not raised, because every fallback value is
nonzero, hence truthy. -/
theorem hybrid_fallback_excluded_from_missing (av : Option AVData)
    (infoSector : String) (iPe iRoe iDe : Option ℚ) (f : ℚ × ℚ × ℚ)
    (hfb : sectorFallbacks
        (getFundamentalsHybrid av infoSector iPe iRoe iDe).sector = some f) :
    (truthy (combineAV (av.map AVData.pe) iPe) = false →
      "P/E" ∉ (getFundamentalsHybrid av infoSector iPe iRoe iDe).missing ∧
      "P/E=" ∈ (getFundamentalsHybrid av infoSector iPe iRoe iDe).fallbackApplied ∧
      (getFundamentalsHybrid av infoSector iPe iRoe iDe).pe = some f.1) ∧
    (truthy (combineAV (av.map AVData.roe) iRoe) = false →
      "ROE" ∉ (getFundamentalsHybrid av infoSector iPe iRoe iDe).missing ∧
      "ROE=" ∈ (getFundamentalsHybrid av infoSector iPe iRoe iDe).fallbackApplied ∧
      (getFundamentalsHybrid av infoSector iPe iRoe iDe).roe = some f.2.1) ∧
    (truthy (combineAV (av.map AVData.de) iDe) = false →
      "D/E" ∉ (getFundamentalsHybrid av infoSector iPe iRoe iDe).missing ∧
      "D/E=" ∈ (getFundamentalsHybrid av infoSector iPe iRoe iDe).fallbackApplied ∧
      (getFundamentalsHybrid av infoSector iPe iRoe iDe).de = some f.2.2) := by
  have hfb' : sectorFallbacks (hybridSector av infoSector) = some f := hfb
  have hnz := sectorFallbacks_ne_zero _ f hfb'
  have t1 : truthy (some f.1) = true := by simp [truthy, hnz.1]
  have t2 : truthy (some f.2.1) = true := by simp [truthy, hnz.2.1]
  have t3 : truthy (some f.2.2) = true := by simp [truthy, hnz.2.2]
  refine ⟨fun hp => ?_, fun hr => ?_, fun hd => ?_⟩
  · simp only [getFundamentalsHybrid, hfb', Option.map_some']
    rw [fillFallback_falsy _ _ hp]
    simp only [t1]
    simp
  · simp only [getFundamentalsHybrid, hfb', Option.map_some']
    rw [fillFallback_falsy _ _ hr]
    simp only [t2]
    simp
  · simp only [getFundamentalsHybrid, hfb', Option.map_some']
    rw [fillFallback_falsy _ _ hd]
    simp only [t3]
    simp

/-- Witness for `hybrid_fallback_excluded_from_missing`: both providers
return nothing for P/E and the sector is `Technology`, whose fallback
P/E estimate is 20; the metric is filled, marked ESTIMATED, and kept out
of the `MISSING DATA` list. -/
theorem hybrid_fallback_excluded_from_missing_witness :
    sectorFallbacks (getFundamentalsHybrid none "Technology" none none none).sector
        = some (20, 0.20, 20) ∧
    truthy (combineAV ((none : Option AVData).map AVData.pe) none) = false ∧
    ("P/E" ∉ (getFundamentalsHybrid none "Technology" none none none).missing ∧
     "P/E=" ∈ (getFundamentalsHybrid none "Technology" none none none).fallbackApplied ∧
     (getFundamentalsHybrid none "Technology" none none none).pe = some 20) :=
  ⟨by with_unfolding_all decide, by decide,
   (hybrid_fallback_excluded_from_missing none "Technology" none none none
      (20, 0.20, 20) (by with_unfolding_all decide)).1 (by decide)⟩

/-- Claim C4 is false in its boundary examples: with the half-open
`<`-ladder of the code, an RSI of exactly 45.00 does NOT satisfy
`rsi < 45` and therefore classifies as NEUTRAL (not SLIGHTLY_OVERSOLD),
and an RSI of exactly 70.00 classifies as OVERBOUGHT (not
SLIGHTLY_OVERBOUGHT). -/
theorem rsi_boundary_claim_false :
    rsiSignal (.val 45) = "NEUTRAL - No strong signal" ∧
    rsiSignal (.val 45) ≠ "Slightly oversold - Good entry point" ∧
    rsiSignal (.val 70) = "OVERBOUGHT - Potential SELL signal" ∧
    rsiSignal (.val 70) ≠ "Slightly overbought - Caution" := by
  refine ⟨?_, ?_, ?_, ?_⟩ <;> decide

/-- Claim C4, amended: the RSI band classifier uses half-open upper
bounds — for every finite RSI value `r`, `r < 30` gives OVERSOLD,
`30 ≤ r < 45` SLIGHTLY_OVERSOLD, `45 ≤ r < 55` NEUTRAL, `55 ≤ r < 70`
SLIGHTLY_OVERBOUGHT and `70 ≤ r` OVERBOUGHT; consequently exactly 45.00
falls into NEUTRAL and exactly 70.00 into OVERBOUGHT (each boundary
belongs to the upper band, not the lower one). -/
theorem rsi_band_halfopen (q : ℚ) :
    (q < 30 → rsiSignal (.val q) = "OVERSOLD - Strong potential BUY signal") ∧
    (30 ≤ q → q < 45 → rsiSignal (.val q) = "Slightly oversold - Good entry point") ∧
    (45 ≤ q → q < 55 → rsiSignal (.val q) = "NEUTRAL - No strong signal") ∧
    (55 ≤ q → q < 70 → rsiSignal (.val q) = "Slightly overbought - Caution") ∧
    (70 ≤ q → rsiSignal (.val q) = "OVERBOUGHT - Potential SELL signal") := by
  refine ⟨fun h1 => ?_, fun h1 h2 => ?_, fun h1 h2 => ?_, fun h1 h2 => ?_, fun h1 => ?_⟩
  · simp [rsiSignal, RFloat.lt, h1]
  · have n0 : ¬ q < 30 := not_lt.2 h1
    simp [rsiSignal, RFloat.lt, n0, h2]
  · have n0 : ¬ q < 30 := not_lt.2 (le_trans (by norm_num) h1)
    have n1 : ¬ q < 45 := not_lt.2 h1
    simp [rsiSignal, RFloat.lt, n0, n1, h2]
  · have n0 : ¬ q < 30 := not_lt.2 (le_trans (by norm_num) h1)
    have n1 : ¬ q < 45 := not_lt.2 (le_trans (by norm_num) h1)
    have n2 : ¬ q < 55 := not_lt.2 h1
    simp [rsiSignal, RFloat.lt, n0, n1, n2, h2]
  · have n0 : ¬ q < 30 := not_lt.2 (le_trans (by norm_num) h1)
    have n1 : ¬ q < 45 := not_lt.2 (le_trans (by norm_num) h1)
    have n2 : ¬ q < 55 := not_lt.2 (le_trans (by norm_num) h1)
    have n3 : ¬ q < 70 := not_lt.2 h1
    simp [rsiSignal, RFloat.lt, n0, n1, n2, n3]

/-- Witness for `rsi_band_halfopen` at the two boundary values 45 and
70. -/
theorem rsi_band_halfopen_witness :
    ((45 : ℚ) ≤ 45 ∧ (45 : ℚ) < 55 ∧
      rsiSignal (.val 45) = "NEUTRAL - No strong signal") ∧
    ((70 : ℚ) ≤ 70 ∧
      rsiSignal (.val 70) = "OVERBOUGHT - Potential SELL signal") :=
  ⟨⟨by decide, by decide, (rsi_band_halfopen 45).2.2.1 (by decide) (by decide)⟩,
   ⟨by decide, (rsi_band_halfopen 70).2.2.2.2 (by decide)⟩⟩

/-- Claim C5: the code disagrees with it.  For a history of 5 closes
(fewer than 15), `GetStockPriceTool._run` does not return a structured
InsufficientHistory error: the rolling windows are `NaN`, the RSI is
`NaN`, every `<` comparison on `NaN` is false, and the tool returns an
ordinary result string that classifies the undefined RSI as
`OVERBOUGHT - Potential SELL signal`. -/
theorem short_history_no_structured_error :
    getStockPrice [100, 101, 102, 103, 104]
      = .ok 104 .nan "OVERBOUGHT - Potential SELL signal" ∧
    rsiOf [100, 101, 102, 103, 104] = .nan := by
  constructor <;> with_unfolding_all rfl

/-- Claim C6 is false as stated: on the strictly increasing 15-close
pure-gain history the average loss is exactly 0 and the division
`rs = avg_gain / avg_loss` IS performed with a zero divisor (there is no
special case); the RSI still comes out as 100, but through IEEE
semantics (`1/0 = +∞`, `100 - 100/(1+∞) = 100`). -/
theorem rsi_division_by_zero_performed :
    avgGain pureGainCloses = some 1 ∧
    avgLoss pureGainCloses = some 0 ∧
    rsDividesByZero pureGainCloses = true ∧
    rsiOf pureGainCloses = .val 100 := by
  refine ⟨?_, ?_, ?_, ?_⟩ <;> with_unfolding_all decide

/-- Claim C6, amended: for every price window whose final average loss
is zero and whose final average gain is positive, the RSI evaluates to
exactly 100, but not via a special case: the division
`avg_gain / avg_loss` is evaluated with a zero divisor (IEEE
`g / 0 = +∞`), as the instrumentation flag records. -/
theorem rsi_pure_gain_hundred (closes : List ℚ) (g : ℚ)
    (hg : avgGain closes = some g) (hl : avgLoss closes = some 0)
    (hpos : 0 < g) :
    rsiOf closes = .val 100 ∧ rsDividesByZero closes = true := by
  constructor
  · unfold rsiOf
    rw [hg, hl]
    show rsiFromAvgs g 0 = RFloat.val 100
    unfold rsiFromAvgs
    have hne : g ≠ 0 := hpos.ne'
    simp only [rsDiv, if_pos rfl, if_neg hne]
    norm_num [onePlus, hundredDiv, hundredSub]
  · unfold rsDividesByZero
    rw [hl]
    simp

/-- Witness for `rsi_pure_gain_hundred` on the concrete pure-gain
15-close history. -/
theorem rsi_pure_gain_hundred_witness :
    (avgGain pureGainCloses = some 1 ∧ avgLoss pureGainCloses = some 0 ∧
      (0 : ℚ) < 1) ∧
    (rsiOf pureGainCloses = .val 100 ∧ rsDividesByZero pureGainCloses = true) :=
  ⟨⟨by with_unfolding_all decide, by with_unfolding_all decide, by decide⟩,
   rsi_pure_gain_hundred pureGainCloses 1 (by with_unfolding_all decide)
     (by with_unfolding_all decide) (by decide)⟩

/-- Claim C8: for every batch and every completion order that is a
permutation of the submitted futures, the parallel analyzer returns
exactly one entry per input ticker — the multiset of returned tickers is
a permutation of the input list — and each entry is tagged with its
originating ticker: an exception for that ticker is converted into a
`failed` entry carrying the ticker's name (so it aborts nothing else),
and a normal completion into a `completed` entry.  The sequential branch
satisfies the same contract in submission order. -/
theorem parallel_batch_isolated (outcome : String → Except String String)
    (tickers : List String) (order : List (Fin tickers.length))
    (hperm : order.Perm (List.finRange tickers.length)) :
    (analyzeMultipleParallel outcome tickers order).length = tickers.length ∧
    ((analyzeMultipleParallel outcome tickers order).map TickerResult.ticker).Perm
      tickers ∧
    (∀ r ∈ analyzeMultipleParallel outcome tickers order,
      (∀ e, outcome r.ticker = .error e →
          r.status = "failed" ∧ r.result = "Error: " ++ e) ∧
      (∀ s, outcome r.ticker = .ok s →
          r.status = "completed" ∧ r.result = s)) ∧
    (analyzeMultipleSequential outcome tickers).map TickerResult.ticker = tickers := by
  have hmap : (analyzeMultipleParallel outcome tickers order).map TickerResult.ticker
      = order.map fun i => tickers.get i := by
    unfold analyzeMultipleParallel
    rw [List.map_map]
    apply List.map_congr_left
    intro i _
    show (runTicker outcome (tickers.get i)).ticker = tickers.get i
    unfold runTicker
    cases outcome (tickers.get i) <;> rfl
  refine ⟨?_, ?_, ?_, ?_⟩
  · unfold analyzeMultipleParallel
    rw [List.length_map, hperm.length_eq, List.length_finRange]
  · rw [hmap]
    have := (hperm.map fun i => tickers.get i)
    rwa [List.finRange_map_get] at this
  · intro r hr
    obtain ⟨i, _, hi⟩ := List.mem_map.1 hr
    have ht : r.ticker = tickers.get i := by
      rw [← hi]; unfold runTicker; cases outcome (tickers.get i) <;> rfl
    constructor
    · intro e he
      rw [ht] at he
      have hrun : runTicker outcome (tickers.get i)
          = ⟨tickers.get i, "Error: " ++ e, "failed"⟩ := by
        unfold runTicker; rw [he]
      rw [← hi, hrun]
      exact ⟨rfl, rfl⟩
    · intro s hs
      rw [ht] at hs
      have hrun : runTicker outcome (tickers.get i)
          = ⟨tickers.get i, s, "completed"⟩ := by
        unfold runTicker; rw [hs]
      rw [← hi, hrun]
      exact ⟨rfl, rfl⟩
  · unfold analyzeMultipleSequential
    rw [List.map_map]
    conv_rhs => rw [← List.map_id tickers]
    apply List.map_congr_left
    intro t _
    show (runTicker outcome t).ticker = id t
    unfold runTicker
    cases outcome t <;> rfl

/-- Witness for `parallel_batch_isolated`: two tickers, the second one
failing, futures completing in reverse submission order. -/
theorem parallel_batch_isolated_witness :
    demoOrder.Perm (List.finRange demoTickers.length) ∧
    ((analyzeMultipleParallel demoOutcome demoTickers demoOrder).length
        = demoTickers.length ∧
     ((analyzeMultipleParallel demoOutcome demoTickers demoOrder).map
        TickerResult.ticker).Perm demoTickers ∧
     (∀ r ∈ analyzeMultipleParallel demoOutcome demoTickers demoOrder,
       (∀ e, demoOutcome r.ticker = .error e →
           r.status = "failed" ∧ r.result = "Error: " ++ e) ∧
       (∀ s, demoOutcome r.ticker = .ok s →
           r.status = "completed" ∧ r.result = s)) ∧
     (analyzeMultipleSequential demoOutcome demoTickers).map TickerResult.ticker
        = demoTickers) :=
  ⟨by decide, parallel_batch_isolated demoOutcome demoTickers demoOrder (by decide)⟩

end StockAnalyzer
